import Mathlib

/-!
ResourceBackgroundQueue (OgreMain/src/OgreResourceBackgroundQueue.cpp)

A shallow embedding of the background resource queue.

* Pointers (`ResourceManager*`, `Resource*`, `Listener*`, `ManualResourceLoader*`,
  `const NameValuePairList*`) are natural numbers, `0` being the null pointer, so that
  `if (resresp.resource)` and `if (req.listener)` read `≠ 0`.
* `BackgroundProcessTicket`, `WorkQueue::RequestID` and `ResourceHandle` are natural numbers;
  the file performs no arithmetic on them.
* The resource managers and the work queue are external. They are a parameter `Env`:
  what a call returns, or the description of the `Ogre::Exception` it raises, may depend on
  everything that happened before (the trace).
* Every external call and every callback is appended to the trace of the `World`, next to the
  one data member of the class, `mOutstandingRequestSet`.
* `OGRE_THREAD_SUPPORT` is the parameter `mode`: `#if OGRE_THREAD_SUPPORT` is `mode ≠ 0`,
  `#if OGRE_THREAD_SUPPORT == 2` is `mode = 2`.
* The callbacks `_fireLoadingComplete`, `_firePreparingComplete` and `operationCompleted` are
  recorded as events and taken to return.
-/

namespace Ogre

/-- The request kinds switched on in `handleRequest`. -/
inductive RequestType
  | RT_INITIALISE_GROUP
  | RT_INITIALISE_ALL_GROUPS
  | RT_PREPARE_GROUP
  | RT_PREPARE_RESOURCE
  | RT_LOAD_GROUP
  | RT_LOAD_RESOURCE
  | RT_UNLOAD_GROUP
  | RT_UNLOAD_RESOURCE
  deriving DecidableEq, Repr

/-- The result slot handed to `Listener::operationCompleted`. -/
structure BackgroundProcessResult where
  error : Bool
  message : String
  deriving DecidableEq, Repr

/-- The members of `ResourceRequest` that the file reads or writes. -/
structure ResourceRequest where
  type : RequestType
  resourceName : String
  resourceHandle : Nat
  resourceType : String
  groupName : String
  isManual : Bool
  loader : Nat
  loadParams : Nat
  listener : Nat
  result : BackgroundProcessResult
  deriving DecidableEq, Repr

/-- The pair built by `ResourceResponse resresp(resource, resreq)`. -/
structure ResourceResponse where
  resource : Nat
  request : ResourceRequest
  deriving DecidableEq, Repr

/-- The calls made into `ResourceGroupManager` and `ResourceManager`. The last argument of
`load` is the sixth parameter: `some true` in `handleRequest`, where it is passed, `none`
where the call leaves it to its default. -/
inductive StoreCall
  | initialiseResourceGroup (name : String)
  | initialiseAllResourceGroups
  | prepareResourceGroup (name : String)
  | loadResourceGroup (name : String)
  | unloadResourceGroup (name : String)
  | getResourceManager (resType : String)
  | prepare (rm : Nat) (name group : String) (isManual : Bool) (loader loadParams : Nat)
  | load (rm : Nat) (name group : String) (isManual : Bool) (loader loadParams : Nat)
      (sixth : Option Bool)
  | unloadByName (rm : Nat) (name : String)
  | unloadByHandle (rm : Nat) (handle : Nat)
  deriving DecidableEq, Repr

/-- Everything observable outside the class: calls into the resource managers, requests handed
to the work queue, the two resource notifications and the listener callback. -/
inductive Event
  | store (call : StoreCall)
  | queued (requestID : Nat) (data : ResourceRequest)
  | fireLoadingComplete (resource : Nat)
  | firePreparingComplete (resource : Nat)
  | operationCompleted (listener ticket : Nat) (result : BackgroundProcessResult)
  deriving DecidableEq, Repr

/-- How an external call ends: it returns a value (a pointer, or nothing of interest), or it
raises an `Ogre::Exception` with the given full description. -/
inductive Outcome
  | returned (value : Nat)
  | raised (description : String)
  deriving DecidableEq, Repr

/-- The external collaborators. `store` answers a call into the resource managers,
`addRequest` is the identifier `WorkQueue::addRequest` returns; both see the trace so far. -/
structure Env where
  store : List Event → StoreCall → Outcome
  addRequest : List Event → RequestType → ResourceRequest → Nat

/-- State: the class member `mOutstandingRequestSet` and the trace of external events. -/
structure World where
  mOutstandingRequestSet : Finset Nat
  trace : List Event
  deriving DecidableEq

namespace WorkQueue

/-- The part of `WorkQueue::Request` used here: `getID()` and `getData()`. -/
structure Request where
  id : Nat
  data : ResourceRequest
  deriving DecidableEq, Repr

/-- The arguments of `OGRE_NEW WorkQueue::Response(req, success, data[, msg])`; `messages` is
`none` where the fourth argument is left out. -/
structure Response where
  request : Request
  success : Bool
  data : ResourceResponse
  messages : Option String
  deriving DecidableEq, Repr

end WorkQueue

/-- One call into the resource managers: ask the environment, record the call. -/
def callStore (E : Env) (c : StoreCall) (w : World) : Outcome × World :=
  (E.store w.trace c, { w with trace := w.trace ++ [Event.store c] })

/-- Append a callback event. -/
def emit (e : Event) (w : World) : World :=
  { w with trace := w.trace ++ [e] }

/-- A call whose returned value is not kept: `some e` when it raises `e`. -/
def callVoid (E : Env) (c : StoreCall) (w : World) : Option String × World :=
  match callStore E c w with
  | (Outcome.raised e, w1) => (some e, w1)
  | (Outcome.returned _, w1) => (none, w1)

/-- `ResourceBackgroundQueue::isProcessComplete` (lines 262-266). -/
def isProcessComplete (ticket : Nat) (w : World) : Bool × World :=
  (decide (ticket ∉ w.mOutstandingRequestSet), w)

/-- `ResourceBackgroundQueue::addRequest` (lines 268-281). -/
def addRequest (E : Env) (req : ResourceRequest) (w : World) : Nat × World :=
  let requestID := E.addRequest w.trace req.type req
  (requestID,
    { mOutstandingRequestSet := insert requestID w.mOutstandingRequestSet,
      trace := w.trace ++ [Event.queued requestID req] })

/-- The variable declared by `ResourceRequest req;`. Its `String` members are
default-constructed, hence empty. The declaration of the struct is not in this file, so the
contents of the other members before any assignment are the parameter `u`. -/
def ResourceRequest.declared (u : ResourceRequest) : ResourceRequest :=
  { u with resourceName := "", resourceType := "", groupName := "",
           result := { u.result with message := "" } }

/-- The nine public operations with their arguments (lines 78-260). `unloadHandle` is the
overload of `unload` taking a `ResourceHandle`. -/
inductive Dispatch
  | initialiseResourceGroup (name : String) (listener : Nat)
  | initialiseAllResourceGroups (listener : Nat)
  | prepareResourceGroup (name : String) (listener : Nat)
  | loadResourceGroup (name : String) (listener : Nat)
  | prepare (resType name group : String) (isManual : Bool) (loader loadParams listener : Nat)
  | load (resType name group : String) (isManual : Bool) (loader loadParams listener : Nat)
  | unload (resType name : String) (listener : Nat)
  | unloadHandle (resType : String) (handle : Nat) (listener : Nat)
  | unloadResourceGroup (name : String) (listener : Nat)
  deriving DecidableEq, Repr

/-- The `#if OGRE_THREAD_SUPPORT` branch of each operation up to `return addRequest(req)`:
the request it fills in. -/
def Dispatch.request (u : ResourceRequest) : Dispatch → ResourceRequest
  | .initialiseResourceGroup name listener =>
    { ResourceRequest.declared u with
      type := .RT_INITIALISE_GROUP, groupName := name, listener := listener }
  | .initialiseAllResourceGroups listener =>
    { ResourceRequest.declared u with
      type := .RT_INITIALISE_ALL_GROUPS, listener := listener }
  | .prepareResourceGroup name listener =>
    { ResourceRequest.declared u with
      type := .RT_PREPARE_GROUP, groupName := name, listener := listener }
  | .loadResourceGroup name listener =>
    { ResourceRequest.declared u with
      type := .RT_LOAD_GROUP, groupName := name, listener := listener }
  | .prepare resType name group isManual loader loadParams listener =>
    { ResourceRequest.declared u with
      type := .RT_PREPARE_RESOURCE, resourceType := resType, resourceName := name,
      groupName := group, isManual := isManual, loader := loader, loadParams := loadParams,
      listener := listener }
  | .load resType name group isManual loader loadParams listener =>
    { ResourceRequest.declared u with
      type := .RT_LOAD_RESOURCE, resourceType := resType, resourceName := name,
      groupName := group, isManual := isManual, loader := loader, loadParams := loadParams,
      listener := listener }
  | .unload resType name listener =>
    { ResourceRequest.declared u with
      type := .RT_UNLOAD_RESOURCE, resourceType := resType, resourceName := name,
      listener := listener }
  | .unloadHandle resType handle listener =>
    { ResourceRequest.declared u with
      type := .RT_UNLOAD_RESOURCE, resourceType := resType, resourceHandle := handle,
      listener := listener }
  | .unloadResourceGroup name listener =>
    { ResourceRequest.declared u with
      type := .RT_UNLOAD_GROUP, groupName := name, listener := listener }

/-- A call on the manager of a resource type, as in the `#else` branches:
`rm = _getResourceManager(resType); rm->call(...)`. -/
def viaManager (E : Env) (resType : String) (call : Nat → StoreCall) (w : World) :
    Option String × World :=
  match callStore E (.getResourceManager resType) w with
  | (Outcome.raised e, w1) => (some e, w1)
  | (Outcome.returned rm, w1) => callVoid E (call rm) w1

/-- The `#else` branch of each operation up to `return 0`: the synchronous call. Nothing
catches here, so a raised exception leaves the operation (`some e`). -/
def Dispatch.synchronous (E : Env) : Dispatch → World → Option String × World
  | .initialiseResourceGroup name _ => callVoid E (.initialiseResourceGroup name)
  | .initialiseAllResourceGroups _ => callVoid E .initialiseAllResourceGroups
  | .prepareResourceGroup name _ => callVoid E (.prepareResourceGroup name)
  | .loadResourceGroup name _ => callVoid E (.loadResourceGroup name)
  | .prepare resType name group isManual loader loadParams _ =>
    viaManager E resType (fun rm => .prepare rm name group isManual loader loadParams)
  | .load resType name group isManual loader loadParams _ =>
    viaManager E resType (fun rm => .load rm name group isManual loader loadParams none)
  | .unload resType name _ => viaManager E resType (fun rm => .unloadByName rm name)
  | .unloadHandle resType handle _ =>
    viaManager E resType (fun rm => .unloadByHandle rm handle)
  | .unloadResourceGroup name _ => callVoid E (.unloadResourceGroup name)

/-- A public operation as a whole: queue the request when threading is compiled in, else make
the call and return the ticket `0`. -/
def dispatch (mode : Nat) (E : Env) (u : ResourceRequest) (d : Dispatch) (w : World) :
    Outcome × World :=
  if mode ≠ 0 then
    let r := addRequest E (d.request u) w
    (Outcome.returned r.1, r.2)
  else
    match d.synchronous E w with
    | (some e, w1) => (Outcome.raised e, w1)
    | (none, w1) => (Outcome.returned 0, w1)

/-- What the `try` block of `handleRequest` leaves behind: the exception it raised, if any,
and the local variable `resource`. -/
structure TryResult where
  raised : Option String
  resource : Nat
  world : World

/-- A call whose returned pointer is assigned to `resource`; when it raises, `resource` keeps
its initial value `0`. -/
def assignResource (E : Env) (c : StoreCall) (w : World) : TryResult :=
  match callStore E c w with
  | (Outcome.raised e, w1) => ⟨some e, 0, w1⟩
  | (Outcome.returned p, w1) => ⟨none, p, w1⟩

/-- A call that assigns nothing to `resource`. -/
def noResource (E : Env) (c : StoreCall) (w : World) : TryResult :=
  match callStore E c w with
  | (Outcome.raised e, w1) => ⟨some e, 0, w1⟩
  | (Outcome.returned _, w1) => ⟨none, 0, w1⟩

/-- The `try` block of `handleRequest` (lines 290-345), with `rm = 0; resource = 0` before it. -/
def tryBlock (mode : Nat) (E : Env) (resreq : ResourceRequest) (w : World) : TryResult :=
  match resreq.type with
  | .RT_INITIALISE_GROUP => noResource E (.initialiseResourceGroup resreq.groupName) w
  | .RT_INITIALISE_ALL_GROUPS => noResource E .initialiseAllResourceGroups w
  | .RT_PREPARE_GROUP => noResource E (.prepareResourceGroup resreq.groupName) w
  | .RT_LOAD_GROUP =>
    if mode = 2 then noResource E (.prepareResourceGroup resreq.groupName) w
    else noResource E (.loadResourceGroup resreq.groupName) w
  | .RT_UNLOAD_GROUP => noResource E (.unloadResourceGroup resreq.groupName) w
  | .RT_PREPARE_RESOURCE =>
    match callStore E (.getResourceManager resreq.resourceType) w with
    | (Outcome.raised e, w1) => ⟨some e, 0, w1⟩
    | (Outcome.returned rm, w1) =>
      assignResource E (.prepare rm resreq.resourceName resreq.groupName resreq.isManual
        resreq.loader resreq.loadParams) w1
  | .RT_LOAD_RESOURCE =>
    match callStore E (.getResourceManager resreq.resourceType) w with
    | (Outcome.raised e, w1) => ⟨some e, 0, w1⟩
    | (Outcome.returned rm, w1) =>
      if mode = 2 then
        assignResource E (.prepare rm resreq.resourceName resreq.groupName resreq.isManual
          resreq.loader resreq.loadParams) w1
      else
        assignResource E (.load rm resreq.resourceName resreq.groupName resreq.isManual
          resreq.loader resreq.loadParams (some true)) w1
  | .RT_UNLOAD_RESOURCE =>
    match callStore E (.getResourceManager resreq.resourceType) w with
    | (Outcome.raised e, w1) => ⟨some e, 0, w1⟩
    | (Outcome.returned rm, w1) =>
      if resreq.resourceName = "" then noResource E (.unloadByHandle rm resreq.resourceHandle) w1
      else noResource E (.unloadByName rm resreq.resourceName) w1

/-- `ResourceBackgroundQueue::handleRequest` (lines 283-362). -/
def handleRequest (mode : Nat) (E : Env) (req : WorkQueue.Request) (w : World) :
    WorkQueue.Response × World :=
  let resreq := req.data
  let t := tryBlock mode E resreq w
  match t.raised with
  | some e =>
    let resreq1 := { resreq with result := { error := true, message := e } }
    ({ request := req, success := false, data := ⟨t.resource, resreq1⟩, messages := some e },
      t.world)
  | none =>
    let resreq1 := { resreq with result := { resreq.result with error := false } }
    ({ request := req, success := true, data := ⟨t.resource, resreq1⟩, messages := none },
      t.world)

/-- The block under `#if OGRE_THREAD_SUPPORT == 2` in `handleResponse` (lines 372-384): the
full load of what the background only prepared. Nothing catches here. -/
def semithreadedLoad (mode : Nat) (E : Env) (req : ResourceRequest) (w : World) :
    Option String × World :=
  if mode = 2 then
    if req.type = .RT_LOAD_RESOURCE then
      viaManager E req.resourceType
        (fun rm => .load rm req.resourceName req.groupName req.isManual req.loader
          req.loadParams none) w
    else if req.type = .RT_LOAD_GROUP then
      callVoid E (.loadResourceGroup req.groupName) w
    else (none, w)
  else (none, w)

/-- Lines 387-399 of `handleResponse`: the resource listener. -/
def callResourceListener (resresp : ResourceResponse) (w : World) : World :=
  if resresp.resource ≠ 0 then
    if resresp.request.type = .RT_LOAD_RESOURCE then
      emit (.fireLoadingComplete resresp.resource) w
    else
      emit (.firePreparingComplete resresp.resource) w
  else w

/-- Lines 401-403 of `handleResponse`: the queue listener. -/
def callQueueListener (id : Nat) (req : ResourceRequest) (w : World) : World :=
  if req.listener ≠ 0 then emit (.operationCompleted req.listener id req.result) w else w

/-- `ResourceBackgroundQueue::handleResponse` (lines 364-406). The first component is the
exception that leaves the function, if any. -/
def handleResponse (mode : Nat) (E : Env) (res : WorkQueue.Response) (w : World) :
    Option String × World :=
  if res.success then
    let resresp := res.data
    let req := resresp.request
    match semithreadedLoad mode E req w with
    | (some e, w1) => (some e, w1)
    | (none, w1) =>
      let w2 := { w1 with mOutstandingRequestSet := w1.mOutstandingRequestSet.erase res.request.id }
      let w3 := callResourceListener resresp w2
      (none, callQueueListener res.request.id req w3)
  else (none, w)

/-- A run of `handleResponse` calls, one per delivered response, in order. A call that ends
with an exception leaves the state it reached. -/
def handleResponses (mode : Nat) (E : Env) : List WorkQueue.Response → World → World
  | [], w => w
  | res :: rest, w => handleResponses mode E rest (handleResponse mode E res w).2

/-- A run of public operations, in order. -/
def dispatchAll (mode : Nat) (E : Env) (u : ResourceRequest) : List Dispatch → World → World
  | [], w => w
  | d :: rest, w => dispatchAll mode E u rest (dispatch mode E u d w).2

/-- The events the resource listener block is to produce for a response payload. -/
def resourceEvents (resresp : ResourceResponse) : List Event :=
  if resresp.resource ≠ 0 then
    [if resresp.request.type = .RT_LOAD_RESOURCE then Event.fireLoadingComplete resresp.resource
     else Event.firePreparingComplete resresp.resource]
  else []

/-- The events the queue listener block is to produce for a ticket and a request. -/
def listenerEvents (id : Nat) (req : ResourceRequest) : List Event :=
  if req.listener ≠ 0 then [Event.operationCompleted req.listener id req.result] else []

/-- A call of `Listener::operationCompleted`. -/
def Event.isListenerCall : Event → Bool
  | .operationCompleted _ _ _ => true
  | _ => false

/-- The lookup of the resource manager that a per-resource operation starts with; none for a
group operation. -/
def Dispatch.lookup : Dispatch → List StoreCall
  | .prepare resType _ _ _ _ _ _ => [.getResourceManager resType]
  | .load resType _ _ _ _ _ _ => [.getResourceManager resType]
  | .unload resType _ _ => [.getResourceManager resType]
  | .unloadHandle resType _ _ => [.getResourceManager resType]
  | _ => []

/-- The one call that corresponds to a public operation, `rm` being the manager the lookup
returned: initialise, prepare, load or unload of the named group, or prepare, load or unload
(by name or by handle) of the resource. -/
def Dispatch.storeCall (rm : Nat) : Dispatch → StoreCall
  | .initialiseResourceGroup name _ => .initialiseResourceGroup name
  | .initialiseAllResourceGroups _ => .initialiseAllResourceGroups
  | .prepareResourceGroup name _ => .prepareResourceGroup name
  | .loadResourceGroup name _ => .loadResourceGroup name
  | .prepare _ name group isManual loader loadParams _ =>
    .prepare rm name group isManual loader loadParams
  | .load _ name group isManual loader loadParams _ =>
    .load rm name group isManual loader loadParams none
  | .unload _ name _ => .unloadByName rm name
  | .unloadHandle _ handle _ => .unloadByHandle rm handle
  | .unloadResourceGroup name _ => .unloadResourceGroup name

/-- The kinds that work on one resource: they first resolve the manager of the resource
type and then call it. The other kinds call the group manager directly. -/
def RequestType.perResource : RequestType → Bool
  | .RT_PREPARE_RESOURCE => true
  | .RT_LOAD_RESOURCE => true
  | .RT_UNLOAD_RESOURCE => true
  | _ => false

/-- The store call that the kind of a request requires, as the specification words it: the
matching group call for a group kind; prepare, load or unload on the manager `rm` for a
resource kind; the prepare equivalent for the two load kinds in the split-phase build; unload
by name when the name is not empty, by handle otherwise. -/
def requiredCall (mode : Nat) (r : ResourceRequest) (rm : Nat) : StoreCall :=
  match r.type with
  | .RT_INITIALISE_GROUP => .initialiseResourceGroup r.groupName
  | .RT_INITIALISE_ALL_GROUPS => .initialiseAllResourceGroups
  | .RT_PREPARE_GROUP => .prepareResourceGroup r.groupName
  | .RT_LOAD_GROUP =>
    if mode = 2 then .prepareResourceGroup r.groupName else .loadResourceGroup r.groupName
  | .RT_UNLOAD_GROUP => .unloadResourceGroup r.groupName
  | .RT_PREPARE_RESOURCE =>
    .prepare rm r.resourceName r.groupName r.isManual r.loader r.loadParams
  | .RT_LOAD_RESOURCE =>
    if mode = 2 then .prepare rm r.resourceName r.groupName r.isManual r.loader r.loadParams
    else .load rm r.resourceName r.groupName r.isManual r.loader r.loadParams (some true)
  | .RT_UNLOAD_RESOURCE =>
    if r.resourceName = "" then .unloadByHandle rm r.resourceHandle
    else .unloadByName rm r.resourceName

/-- The store, asked from the trace `tr` for what the request `r` requires, raises an exception
with description `m`: for a group kind its call raises `m`; for a resource kind either the
lookup of the manager raises `m`, or the lookup returns a manager and the call on it, made
right after the lookup, raises `m`. This is a statement about the environment alone. -/
def storeRaises (mode : Nat) (E : Env) (r : ResourceRequest) (tr : List Event) (m : String) :
    Prop :=
  if r.type.perResource = true then
    E.store tr (.getResourceManager r.resourceType) = Outcome.raised m ∨
    ∃ rm : Nat,
      E.store tr (.getResourceManager r.resourceType) = Outcome.returned rm ∧
      E.store (tr ++ [Event.store (.getResourceManager r.resourceType)])
        (requiredCall mode r rm) = Outcome.raised m
  else
    E.store tr (requiredCall mode r 0) = Outcome.raised m

/-! ## Concrete environments and inputs -/

/-- Contents of the unassigned members of a declared request in the examples. -/
def leftover : ResourceRequest :=
  { type := .RT_INITIALISE_GROUP, resourceName := "", resourceHandle := 42, resourceType := "",
    groupName := "", isManual := false, loader := 0, loadParams := 0, listener := 0,
    result := { error := false, message := "" } }

/-- An environment in which every call returns: manager `1` for a lookup, resource `9` from
`prepare` and `load`; the work queue numbers requests by the length of the trace. -/
def steadyEnv : Env where
  store := fun _ c =>
    match c with
    | .getResourceManager _ => Outcome.returned 1
    | .prepare _ _ _ _ _ _ => Outcome.returned 9
    | .load _ _ _ _ _ _ _ => Outcome.returned 9
    | _ => Outcome.returned 0
  addRequest := fun tr _ _ => tr.length + 1

/-- An environment in which `prepare` and `load` raise "file not found". -/
def missingFileEnv : Env where
  store := fun _ c =>
    match c with
    | .getResourceManager _ => Outcome.returned 1
    | .prepare _ _ _ _ _ _ => Outcome.raised "file not found"
    | .load _ _ _ _ _ _ _ => Outcome.raised "file not found"
    | _ => Outcome.returned 0
  addRequest := fun tr _ _ => tr.length + 1

/-- The state before anything happened. -/
def emptyWorld : World := ⟨∅, []⟩

/-- A state with ticket `3` outstanding. -/
def pendingWorld : World := ⟨{3}, []⟩

/-- A group request carrying listener `7`. -/
def groupRequest : ResourceRequest :=
  (Dispatch.prepareResourceGroup "Terrain" 7).request leftover

/-- A failed response to request `3`. -/
def failedResponse : WorkQueue.Response :=
  { request := ⟨3, groupRequest⟩, success := false,
    data := ⟨0, { groupRequest with result := ⟨true, "no such group"⟩ }⟩,
    messages := some "no such group" }

/-- A successful response to request `id`. -/
def okResponse (id : Nat) : WorkQueue.Response :=
  { request := ⟨id, groupRequest⟩, success := true,
    data := ⟨0, groupRequest⟩, messages := none }

/-- The scenario of the mesh that is not found: `load` with listener `7`. -/
def meshLoad : Dispatch := .load "Mesh" "ogrehead.mesh" "General" false 0 0 7

/-- The mesh request after it was queued: its ticket and the state. -/
def meshQueued : Nat × World :=
  addRequest missingFileEnv (meshLoad.request leftover) emptyWorld

/-- The mesh request after the worker handled it: the response and the state. -/
def meshHandled : WorkQueue.Response × World :=
  handleRequest 1 missingFileEnv ⟨meshQueued.1, meshLoad.request leftover⟩ meshQueued.2

@[simp] theorem callStore_fst (E : Env) (c : StoreCall) (w : World) :
    (callStore E c w).1 = E.store w.trace c := rfl

@[simp] theorem callStore_snd (E : Env) (c : StoreCall) (w : World) :
    (callStore E c w).2 = ⟨w.mOutstandingRequestSet, w.trace ++ [Event.store c]⟩ := rfl

theorem callVoid_eq (E : Env) (c : StoreCall) (w : World) :
    callVoid E c w =
      ((match E.store w.trace c with
        | Outcome.raised e => some e
        | Outcome.returned _ => none),
       ⟨w.mOutstandingRequestSet, w.trace ++ [Event.store c]⟩) := by
  unfold callVoid callStore
  cases E.store w.trace c <;> rfl

theorem viaManager_eq (E : Env) (resType : String) (call : Nat → StoreCall) (w : World) :
    viaManager E resType call w =
      (match E.store w.trace (.getResourceManager resType) with
       | Outcome.raised e =>
         (some e, ⟨w.mOutstandingRequestSet,
            w.trace ++ [Event.store (.getResourceManager resType)]⟩)
       | Outcome.returned rm =>
         ((match E.store (w.trace ++ [Event.store (.getResourceManager resType)]) (call rm) with
           | Outcome.raised e => some e
           | Outcome.returned _ => none),
          ⟨w.mOutstandingRequestSet,
            w.trace ++ [Event.store (.getResourceManager resType), Event.store (call rm)]⟩)) := by
  unfold viaManager callStore
  cases h : E.store w.trace (.getResourceManager resType) with
  | raised e => rfl
  | returned rm => simp [callVoid_eq, h]

/-- The semithreaded block only makes store calls: the set is untouched and the trace grows by
those calls. -/
theorem semithreadedLoad_shape (mode : Nat) (E : Env) (req : ResourceRequest) (w : World) :
    ∃ calls : List StoreCall,
      (semithreadedLoad mode E req w).2 =
        ⟨w.mOutstandingRequestSet, w.trace ++ calls.map Event.store⟩ := by
  unfold semithreadedLoad
  split_ifs
  · rw [viaManager_eq]
    cases h : E.store w.trace (.getResourceManager req.resourceType) with
    | raised e => exact ⟨[.getResourceManager req.resourceType], by simp⟩
    | returned rm =>
      exact ⟨[.getResourceManager req.resourceType,
        .load rm req.resourceName req.groupName req.isManual req.loader req.loadParams none],
        by simp⟩
  · rw [callVoid_eq]; exact ⟨[.loadResourceGroup req.groupName], by simp⟩
  · exact ⟨[], by simp⟩
  · exact ⟨[], by simp⟩

theorem callResourceListener_eq (resresp : ResourceResponse) (w : World) :
    callResourceListener resresp w =
      ⟨w.mOutstandingRequestSet, w.trace ++ resourceEvents resresp⟩ := by
  unfold callResourceListener resourceEvents emit
  split_ifs <;> simp

theorem callQueueListener_eq (id : Nat) (req : ResourceRequest) (w : World) :
    callQueueListener id req w =
      ⟨w.mOutstandingRequestSet, w.trace ++ listenerEvents id req⟩ := by
  unfold callQueueListener listenerEvents emit
  split_ifs <;> simp

/-- A failed response leaves everything as it was. -/
theorem handleResponse_of_failed (mode : Nat) (E : Env) (res : WorkQueue.Response) (w : World)
    (hfail : res.success = false) : handleResponse mode E res w = (none, w) := by
  simp [handleResponse, hfail]

/-- A response for another ticket, or a failed one, does not remove the ticket `t`. -/
theorem handleResponse_keeps (mode : Nat) (E : Env) (res : WorkQueue.Response) (w : World)
    (t : Nat) (hother : res.success = true → res.request.id ≠ t)
    (hin : t ∈ w.mOutstandingRequestSet) :
    t ∈ (handleResponse mode E res w).2.mOutstandingRequestSet := by
  unfold handleResponse
  dsimp only
  split_ifs with hs
  · obtain ⟨calls, hcalls⟩ := semithreadedLoad_shape mode E res.data.request w
    rcases hsl : semithreadedLoad mode E res.data.request w with ⟨_ | e, w1⟩
    · rw [hsl] at hcalls
      simp only at hcalls
      subst hcalls
      simp only [callQueueListener_eq, callResourceListener_eq]
      exact Finset.mem_erase.mpr ⟨fun h => hother hs h.symm, hin⟩
    · rw [hsl] at hcalls
      simp only at hcalls
      subst hcalls
      exact hin
  · exact hin

theorem handleResponses_keeps (mode : Nat) (E : Env) (t : Nat)
    (rest : List WorkQueue.Response)
    (hother : ∀ r ∈ rest, r.success = true → r.request.id ≠ t) :
    ∀ w : World, t ∈ w.mOutstandingRequestSet →
      t ∈ (handleResponses mode E rest w).mOutstandingRequestSet := by
  induction rest with
  | nil => intro w hin; simpa [handleResponses] using hin
  | cons res rest ih =>
    intro w hin
    simp only [handleResponses]
    exact ih (fun r hr => hother r (List.mem_cons_of_mem _ hr)) _
      (handleResponse_keeps mode E res w t (hother res (List.mem_cons_self _ _)) hin)

theorem noResource_eq (E : Env) (c : StoreCall) (w : World) :
    noResource E c w =
      ⟨(match E.store w.trace c with
        | Outcome.raised e => some e
        | Outcome.returned _ => none), 0,
       ⟨w.mOutstandingRequestSet, w.trace ++ [Event.store c]⟩⟩ := by
  unfold noResource callStore
  cases E.store w.trace c <;> rfl

theorem assignResource_eq (E : Env) (c : StoreCall) (w : World) :
    assignResource E c w =
      ⟨(match E.store w.trace c with
        | Outcome.raised e => some e
        | Outcome.returned _ => none),
       (match E.store w.trace c with
        | Outcome.raised _ => 0
        | Outcome.returned p => p),
       ⟨w.mOutstandingRequestSet, w.trace ++ [Event.store c]⟩⟩ := by
  unfold assignResource callStore
  cases E.store w.trace c <;> rfl

/-- The `try` block makes one or two store calls; it raises exactly when the last of them
does, and then `resource` is still null. -/
theorem tryBlock_shape (mode : Nat) (E : Env) (r : ResourceRequest) (w : World) :
    ∃ (calls : List StoreCall) (c : StoreCall),
      (tryBlock mode E r w).world =
        ⟨w.mOutstandingRequestSet, w.trace ++ calls.map Event.store ++ [Event.store c]⟩ ∧
      (tryBlock mode E r w).raised =
        (match E.store (w.trace ++ calls.map Event.store) c with
         | Outcome.raised e => some e
         | Outcome.returned _ => none) ∧
      (∀ e, (tryBlock mode E r w).raised = some e → (tryBlock mode E r w).resource = 0) := by
  unfold tryBlock
  cases r.type <;> dsimp only
  case RT_INITIALISE_GROUP =>
    exact ⟨[], .initialiseResourceGroup r.groupName, by simp [noResource_eq]⟩
  case RT_INITIALISE_ALL_GROUPS =>
    exact ⟨[], .initialiseAllResourceGroups, by simp [noResource_eq]⟩
  case RT_PREPARE_GROUP =>
    exact ⟨[], .prepareResourceGroup r.groupName, by simp [noResource_eq]⟩
  case RT_UNLOAD_GROUP =>
    exact ⟨[], .unloadResourceGroup r.groupName, by simp [noResource_eq]⟩
  case RT_LOAD_GROUP =>
    split_ifs
    · exact ⟨[], .prepareResourceGroup r.groupName, by simp [noResource_eq]⟩
    · exact ⟨[], .loadResourceGroup r.groupName, by simp [noResource_eq]⟩
  case RT_PREPARE_RESOURCE =>
    cases h : E.store w.trace (.getResourceManager r.resourceType) with
    | raised e => exact ⟨[], .getResourceManager r.resourceType, by simp [callStore, h]⟩
    | returned rm =>
      refine ⟨[.getResourceManager r.resourceType],
        .prepare rm r.resourceName r.groupName r.isManual r.loader r.loadParams, ?_⟩
      simp only [callStore, h, assignResource_eq, List.append_assoc, List.singleton_append,
        List.map_cons, List.map_nil, true_and]
      cases E.store (w.trace ++ [Event.store (.getResourceManager r.resourceType)])
        (.prepare rm r.resourceName r.groupName r.isManual r.loader r.loadParams) <;> simp
  case RT_LOAD_RESOURCE =>
    cases h : E.store w.trace (.getResourceManager r.resourceType) with
    | raised e => exact ⟨[], .getResourceManager r.resourceType, by simp [callStore, h]⟩
    | returned rm =>
      by_cases hmode : mode = 2
      · refine ⟨[.getResourceManager r.resourceType],
          .prepare rm r.resourceName r.groupName r.isManual r.loader r.loadParams, ?_⟩
        simp only [callStore, h, hmode, if_true, assignResource_eq, List.append_assoc,
          List.singleton_append, List.map_cons, List.map_nil, true_and]
        cases E.store (w.trace ++ [Event.store (.getResourceManager r.resourceType)])
          (.prepare rm r.resourceName r.groupName r.isManual r.loader r.loadParams) <;> simp
      · refine ⟨[.getResourceManager r.resourceType],
          .load rm r.resourceName r.groupName r.isManual r.loader r.loadParams (some true), ?_⟩
        simp only [callStore, h, hmode, if_false, assignResource_eq, List.append_assoc,
          List.singleton_append, List.map_cons, List.map_nil, true_and]
        cases E.store (w.trace ++ [Event.store (.getResourceManager r.resourceType)])
          (.load rm r.resourceName r.groupName r.isManual r.loader r.loadParams
            (some true)) <;> simp
  case RT_UNLOAD_RESOURCE =>
    cases h : E.store w.trace (.getResourceManager r.resourceType) with
    | raised e => exact ⟨[], .getResourceManager r.resourceType, by simp [callStore, h]⟩
    | returned rm =>
      by_cases hname : r.resourceName = ""
      · exact ⟨[.getResourceManager r.resourceType],
          .unloadByHandle rm r.resourceHandle, by simp [callStore, h, hname, noResource_eq]⟩
      · exact ⟨[.getResourceManager r.resourceType],
          .unloadByName rm r.resourceName, by simp [callStore, h, hname, noResource_eq]⟩

theorem handleRequest_world (mode : Nat) (E : Env) (req : WorkQueue.Request) (w : World) :
    (handleRequest mode E req w).2 = (tryBlock mode E req.data w).world := by
  unfold handleRequest
  dsimp only
  cases (tryBlock mode E req.data w).raised <;> rfl

theorem viaManager_set (E : Env) (resType : String) (call : Nat → StoreCall) (w : World) :
    (viaManager E resType call w).2.mOutstandingRequestSet = w.mOutstandingRequestSet := by
  rw [viaManager_eq]
  cases E.store w.trace (.getResourceManager resType) <;> rfl

theorem callVoid_returns (E : Env) (c : StoreCall) (w : World)
    (hE : ∀ tr c, ∃ v, E.store tr c = Outcome.returned v) : (callVoid E c w).1 = none := by
  obtain ⟨v, hv⟩ := hE w.trace c
  simp [callVoid_eq, hv]

theorem viaManager_returns (E : Env) (resType : String) (call : Nat → StoreCall) (w : World)
    (hE : ∀ tr c, ∃ v, E.store tr c = Outcome.returned v) :
    (viaManager E resType call w).1 = none := by
  obtain ⟨rm, hrm⟩ := hE w.trace (.getResourceManager resType)
  obtain ⟨v, hv⟩ := hE (w.trace ++ [Event.store (.getResourceManager resType)]) (call rm)
  simp [viaManager_eq, hrm, hv]

theorem viaManager_calls (E : Env) (resType : String) (call : Nat → StoreCall) (w : World)
    (hret : (viaManager E resType call w).1 = none) :
    ∃ rm : Nat, (viaManager E resType call w).2.trace =
      w.trace ++ [Event.store (.getResourceManager resType), Event.store (call rm)] := by
  rw [viaManager_eq] at hret ⊢
  cases h : E.store w.trace (.getResourceManager resType) with
  | raised e => rw [h] at hret; simp at hret
  | returned rm => exact ⟨rm, rfl⟩

/-- The synchronous branch never touches the set. -/
theorem synchronous_set (E : Env) (d : Dispatch) (w : World) :
    (d.synchronous E w).2.mOutstandingRequestSet = w.mOutstandingRequestSet := by
  cases d <;> simp only [Dispatch.synchronous, callVoid_eq, viaManager_set]

/-- The synchronous branch returns when no store call raises. -/
theorem synchronous_returns (E : Env) (d : Dispatch) (w : World)
    (hE : ∀ tr c, ∃ v, E.store tr c = Outcome.returned v) :
    (d.synchronous E w).1 = none := by
  cases d <;> simp only [Dispatch.synchronous] <;>
    first
      | exact callVoid_returns E _ w hE
      | exact viaManager_returns E _ _ w hE

/-- When the synchronous branch returns, it has made the lookup, if the operation has one,
and then the one call of the operation. -/
theorem synchronous_calls (E : Env) (d : Dispatch) (w : World)
    (hret : (d.synchronous E w).1 = none) :
    ∃ rm : Nat, (d.synchronous E w).2.trace =
      w.trace ++ (d.lookup ++ [d.storeCall rm]).map Event.store := by
  cases d <;> simp only [Dispatch.synchronous, Dispatch.lookup, Dispatch.storeCall] at hret ⊢
  case initialiseResourceGroup => exact ⟨0, by simp [callVoid_eq]⟩
  case initialiseAllResourceGroups => exact ⟨0, by simp [callVoid_eq]⟩
  case prepareResourceGroup => exact ⟨0, by simp [callVoid_eq]⟩
  case loadResourceGroup => exact ⟨0, by simp [callVoid_eq]⟩
  case unloadResourceGroup => exact ⟨0, by simp [callVoid_eq]⟩
  all_goals
    obtain ⟨rm, hrm⟩ := viaManager_calls E _ _ w hret
    exact ⟨rm, by simpa using hrm⟩

theorem dispatch_synchronous_set (E : Env) (u : ResourceRequest) (d : Dispatch) (w : World) :
    (dispatch 0 E u d w).2.mOutstandingRequestSet = w.mOutstandingRequestSet := by
  have h := synchronous_set E d w
  unfold dispatch
  simp only [ne_eq, not_true_eq_false, if_false]
  rcases hsync : d.synchronous E w with ⟨_ | e, w1⟩ <;> rw [hsync] at h <;> exact h

theorem dispatchAll_synchronous_set (E : Env) (u : ResourceRequest) (ds : List Dispatch) :
    ∀ w : World,
      (dispatchAll 0 E u ds w).mOutstandingRequestSet = w.mOutstandingRequestSet := by
  induction ds with
  | nil => intro w; rfl
  | cons d ds ih =>
    intro w
    simp only [dispatchAll]
    rw [ih, dispatch_synchronous_set]

/-! ## The claims -/

/-- C8: `isProcessComplete(ticket)` answers true exactly when the ticket is not in the
outstanding set, whatever the set and the ticket (never issued tickets and the ticket `0`
included), and it leaves the state as it was. -/
theorem isProcessComplete_iff_absent (ticket : Nat) (w : World) :
    ((isProcessComplete ticket w).1 = true ↔ ticket ∉ w.mOutstandingRequestSet) ∧
    (isProcessComplete ticket w).2 = w := by
  simp [isProcessComplete]

/-- C4: a failed response makes `handleResponse` do nothing: no exception, the set and the
trace (store calls, notifications, listener callbacks) are as before. So a ticket that was
outstanding stays outstanding, also after any further responses, each of them failed or
answering another request. -/
theorem failed_response_is_ignored (mode : Nat) (E : Env) (res : WorkQueue.Response)
    (w : World) (hfail : res.success = false) :
    handleResponse mode E res w = (none, w) ∧
    (res.request.id ∈ w.mOutstandingRequestSet →
      ∀ rest : List WorkQueue.Response,
        (∀ r ∈ rest, r.success = true → r.request.id ≠ res.request.id) →
        (isProcessComplete res.request.id
          (handleResponses mode E rest (handleResponse mode E res w).2)).1 = false) := by
  have hnoop := handleResponse_of_failed mode E res w hfail
  refine ⟨hnoop, fun hin rest hother => ?_⟩
  rw [hnoop]
  simpa [isProcessComplete] using handleResponses_keeps mode E _ rest hother w hin

/-- Witness for C4: the failed response to request `3`, then a successful one to request `4`. -/
theorem failed_response_is_ignored_witness :
    failedResponse.success = false ∧
    handleResponse 1 steadyEnv failedResponse pendingWorld = (none, pendingWorld) ∧
    (isProcessComplete 3 (handleResponses 1 steadyEnv [okResponse 4]
      (handleResponse 1 steadyEnv failedResponse pendingWorld).2)).1 = false :=
  have h := failed_response_is_ignored 1 steadyEnv failedResponse pendingWorld rfl
  ⟨rfl, h.1, h.2 (by decide) [okResponse 4] (by decide)⟩

/-- C3: for every kind of request, when the store raises an exception with description `m`
on what the request requires (the call of a group kind; the lookup of the manager or the call
on it for a resource kind), `handleRequest` still returns a response: it is marked failed,
its message is `m`, and its payload holds the request with `result.error = true` and
`result.message = m`, all other members as they were, next to the `resource` pointer, which
is still null at that point. The outstanding set is not touched. -/
theorem handleRequest_reports_failure (mode : Nat) (E : Env) (req : WorkQueue.Request)
    (w : World) (m : String)
    (hraise : storeRaises mode E req.data w.trace m) :
    (handleRequest mode E req w).1 =
      { request := req, success := false,
        data := ⟨0, { req.data with result := ⟨true, m⟩ }⟩,
        messages := some m } ∧
    (handleRequest mode E req w).2.mOutstandingRequestSet = w.mOutstandingRequestSet := by
  have hset : (handleRequest mode E req w).2.mOutstandingRequestSet =
      w.mOutstandingRequestSet := by
    obtain ⟨calls, c, hworld, -, -⟩ := tryBlock_shape mode E req.data w
    rw [handleRequest_world, hworld]
  refine ⟨?_, hset⟩
  unfold storeRaises at hraise
  rcases hk : req.data.type
  case RT_INITIALISE_GROUP =>
    simp only [hk, RequestType.perResource, requiredCall, Bool.false_eq_true, if_false]
      at hraise
    simp [handleRequest, tryBlock, hk, noResource_eq, hraise]
  case RT_INITIALISE_ALL_GROUPS =>
    simp only [hk, RequestType.perResource, requiredCall, Bool.false_eq_true, if_false]
      at hraise
    simp [handleRequest, tryBlock, hk, noResource_eq, hraise]
  case RT_PREPARE_GROUP =>
    simp only [hk, RequestType.perResource, requiredCall, Bool.false_eq_true, if_false]
      at hraise
    simp [handleRequest, tryBlock, hk, noResource_eq, hraise]
  case RT_UNLOAD_GROUP =>
    simp only [hk, RequestType.perResource, requiredCall, Bool.false_eq_true, if_false]
      at hraise
    simp [handleRequest, tryBlock, hk, noResource_eq, hraise]
  case RT_LOAD_GROUP =>
    simp only [hk, RequestType.perResource, requiredCall, Bool.false_eq_true, if_false]
      at hraise
    by_cases hmode : mode = 2
    · simp only [hmode, if_true] at hraise
      simp [handleRequest, tryBlock, hk, hmode, noResource_eq, hraise]
    · simp only [hmode, if_false] at hraise
      simp [handleRequest, tryBlock, hk, hmode, noResource_eq, hraise]
  case RT_PREPARE_RESOURCE =>
    simp only [hk, RequestType.perResource, requiredCall, eq_self_iff_true, if_true]
      at hraise
    rcases hraise with hl | ⟨rm, hl, hc⟩
    · simp [handleRequest, tryBlock, hk, callStore, hl]
    · simp [handleRequest, tryBlock, hk, callStore, hl, assignResource_eq, hc]
  case RT_LOAD_RESOURCE =>
    simp only [hk, RequestType.perResource, requiredCall, eq_self_iff_true, if_true]
      at hraise
    rcases hraise with hl | ⟨rm, hl, hc⟩
    · simp [handleRequest, tryBlock, hk, callStore, hl]
    · by_cases hmode : mode = 2
      · simp only [hmode, if_true] at hc
        simp [handleRequest, tryBlock, hk, hmode, callStore, hl, assignResource_eq, hc]
      · simp only [hmode, if_false] at hc
        simp [handleRequest, tryBlock, hk, hmode, callStore, hl, assignResource_eq, hc]
  case RT_UNLOAD_RESOURCE =>
    simp only [hk, RequestType.perResource, requiredCall, eq_self_iff_true, if_true]
      at hraise
    rcases hraise with hl | ⟨rm, hl, hc⟩
    · simp [handleRequest, tryBlock, hk, callStore, hl]
    · by_cases hname : req.data.resourceName = ""
      · simp only [hname, if_true] at hc
        simp [handleRequest, tryBlock, hk, hname, callStore, hl, noResource_eq, hc]
      · simp only [hname, if_false] at hc
        simp [handleRequest, tryBlock, hk, hname, callStore, hl, noResource_eq, hc]

/-- Witness for C3: the mesh request; the lookup returns manager `1`, whose `load` raises
"file not found". -/
theorem handleRequest_reports_failure_witness :
    storeRaises 1 missingFileEnv (meshLoad.request leftover) meshQueued.2.trace
      "file not found" ∧
    meshHandled.1 =
      { request := ⟨meshQueued.1, meshLoad.request leftover⟩, success := false,
        data := ⟨0, { meshLoad.request leftover with result := ⟨true, "file not found"⟩ }⟩,
        messages := some "file not found" } :=
  have hr : storeRaises 1 missingFileEnv (meshLoad.request leftover) meshQueued.2.trace
      "file not found" := Or.inr ⟨1, rfl, rfl⟩
  ⟨hr, (handleRequest_reports_failure 1 missingFileEnv
    ⟨meshQueued.1, meshLoad.request leftover⟩ meshQueued.2 "file not found" hr).1⟩

/-- C2, evaluated on the scenario of the spec: `load("Mesh", "ogrehead.mesh", "General")` with
listener `7` is queued as ticket `1`; the store raises "file not found"; the response is a
failure whose result slot holds the error and the message; `handleResponse` then does
nothing, so the listener is never called and the ticket stays outstanding. -/
theorem failed_load_never_reaches_listener :
    meshQueued.1 = 1 ∧
    meshHandled.1.success = false ∧
    meshHandled.1.data.request.listener = 7 ∧
    meshHandled.1.data.request.result = ⟨true, "file not found"⟩ ∧
    handleResponse 1 missingFileEnv meshHandled.1 meshHandled.2 = (none, meshHandled.2) ∧
    (∀ e ∈ (handleResponse 1 missingFileEnv meshHandled.1 meshHandled.2).2.trace,
      e.isListenerCall = false) ∧
    (isProcessComplete 1
      (handleResponse 1 missingFileEnv meshHandled.1 meshHandled.2).2).1 = false := by
  have hnoop := handleResponse_of_failed 1 missingFileEnv meshHandled.1 meshHandled.2 rfl
  refine ⟨rfl, rfl, rfl, rfl, hnoop, ?_, ?_⟩
  · rw [hnoop]; decide
  · rw [hnoop]; decide

/-- C5, as the code has it: the request of `unload(resType, name)` with a non-empty name is
run as `rm->unload(name)`; the request of `unload(resType, handle)` is run as
`rm->unload(handle)`, for every handle; an unload request with a non-empty name and a
non-zero handle is run as `rm->unload(name)`. Here `rm` is what the lookup of the resource
type returned. -/
theorem unload_routing (mode : Nat) (E : Env) (u : ResourceRequest) (id : Nat)
    (resType name : String) (handle listener : Nat) (w : World) (rm : Nat)
    (hrm : E.store w.trace (.getResourceManager resType) = Outcome.returned rm) :
    (name ≠ "" →
      (handleRequest mode E ⟨id, (Dispatch.unload resType name listener).request u⟩ w).2.trace =
        w.trace ++ [Event.store (.getResourceManager resType),
          Event.store (.unloadByName rm name)]) ∧
    (handleRequest mode E
        ⟨id, (Dispatch.unloadHandle resType handle listener).request u⟩ w).2.trace =
      w.trace ++ [Event.store (.getResourceManager resType),
        Event.store (.unloadByHandle rm handle)] ∧
    (∀ req : ResourceRequest, req.type = .RT_UNLOAD_RESOURCE → req.resourceType = resType →
      req.resourceName = name → req.resourceHandle = handle → name ≠ "" → handle ≠ 0 →
      (handleRequest mode E ⟨id, req⟩ w).2.trace =
        w.trace ++ [Event.store (.getResourceManager resType),
          Event.store (.unloadByName rm name)]) := by
  refine ⟨fun hname => ?_, ?_, fun req ht hty hn hh hname _ => ?_⟩
  · simp [handleRequest_world, tryBlock, Dispatch.request, ResourceRequest.declared, hrm,
      hname, noResource_eq, callStore]
  · simp [handleRequest_world, tryBlock, Dispatch.request, ResourceRequest.declared, hrm,
      noResource_eq, callStore]
  · subst hty hn hh
    simp [handleRequest_world, tryBlock, ht, hrm, hname, noResource_eq, callStore]

/-- Witness for C5: name "ogrehead.mesh", handle `5`, manager `1`. -/
theorem unload_routing_witness :
    steadyEnv.store emptyWorld.trace (.getResourceManager "Mesh") = Outcome.returned 1 ∧
    (handleRequest 1 steadyEnv
        ⟨1, (Dispatch.unload "Mesh" "ogrehead.mesh" 0).request leftover⟩ emptyWorld).2.trace =
      emptyWorld.trace ++ [Event.store (.getResourceManager "Mesh"),
        Event.store (.unloadByName 1 "ogrehead.mesh")] ∧
    (handleRequest 1 steadyEnv
        ⟨1, (Dispatch.unloadHandle "Mesh" 5 0).request leftover⟩ emptyWorld).2.trace =
      emptyWorld.trace ++ [Event.store (.getResourceManager "Mesh"),
        Event.store (.unloadByHandle 1 5)] :=
  have h := unload_routing 1 steadyEnv leftover 1 "Mesh" "ogrehead.mesh" 5 0 emptyWorld 1 rfl
  ⟨rfl, h.1 (by decide), h.2.1⟩

/-- C5 fails for the empty name: the request of `unload("Mesh", "")` is run as
`rm->unload(handle)` on the handle member nobody assigned (here `42`), and no
`rm->unload(name)` is made. -/
theorem unload_empty_name_goes_by_handle :
    (handleRequest 1 steadyEnv
        ⟨1, (Dispatch.unload "Mesh" "" 0).request leftover⟩ emptyWorld).2.trace =
      [Event.store (.getResourceManager "Mesh"), Event.store (.unloadByHandle 1 42)] ∧
    ∀ rm : Nat, Event.store (.unloadByName rm "") ∉
      (handleRequest 1 steadyEnv
        ⟨1, (Dispatch.unload "Mesh" "" 0).request leftover⟩ emptyWorld).2.trace := by
  have h : (handleRequest 1 steadyEnv
        ⟨1, (Dispatch.unload "Mesh" "" 0).request leftover⟩ emptyWorld).2.trace =
      [Event.store (.getResourceManager "Mesh"), Event.store (.unloadByHandle 1 42)] := rfl
  refine ⟨h, fun rm => ?_⟩
  rw [h]
  simp

/-- C9: in the build without threads (`OGRE_THREAD_SUPPORT == 0`) each of the nine public
operations leaves the outstanding set as it was; when it returns, it returns the ticket `0`
after having made its one corresponding call (behind the lookup of the manager for a
per-resource operation); it returns whenever no store call raises. So after any run of
operations from an empty set the set is empty and `isProcessComplete` is true for every
ticket. -/
theorem synchronous_dispatch (E : Env) (u : ResourceRequest) (d : Dispatch) (w : World)
    (ds : List Dispatch) (tr : List Event) :
    (dispatch 0 E u d w).2.mOutstandingRequestSet = w.mOutstandingRequestSet ∧
    ((∀ tr c, ∃ v, E.store tr c = Outcome.returned v) →
      (dispatch 0 E u d w).1 = Outcome.returned 0) ∧
    (∀ t, (dispatch 0 E u d w).1 = Outcome.returned t →
      t = 0 ∧ ∃ rm : Nat, (dispatch 0 E u d w).2.trace =
        w.trace ++ (d.lookup ++ [d.storeCall rm]).map Event.store) ∧
    (dispatchAll 0 E u ds ⟨∅, tr⟩).mOutstandingRequestSet = ∅ ∧
    (∀ t, (isProcessComplete t (dispatchAll 0 E u ds ⟨∅, tr⟩)).1 = true) := by
  have hall := dispatchAll_synchronous_set E u ds ⟨∅, tr⟩
  refine ⟨dispatch_synchronous_set E u d w, fun hE => ?_, fun t ht => ?_, hall, fun t => ?_⟩
  · have h := synchronous_returns E d w hE
    unfold dispatch
    simp only [ne_eq, not_true_eq_false, if_false]
    rcases hsync : d.synchronous E w with ⟨_ | e, w2⟩
    · rfl
    · rw [hsync] at h; simp at h
  · have hcalls := synchronous_calls E d w
    unfold dispatch at ht ⊢
    simp only [ne_eq, not_true_eq_false, if_false] at ht ⊢
    rcases hsync : d.synchronous E w with ⟨_ | e, w2⟩
    · rw [hsync] at ht hcalls
      simp only [Outcome.returned.injEq] at ht
      exact ⟨ht.symm, hcalls rfl⟩
    · rw [hsync] at ht
      simp at ht
  · simp [isProcessComplete, hall]

/-- Witness for C9: `loadResourceGroup("Terrain")`, then a run of two more operations. -/
theorem synchronous_dispatch_witness :
    (∀ tr c, ∃ v, steadyEnv.store tr c = Outcome.returned v) ∧
    (dispatch 0 steadyEnv leftover (Dispatch.loadResourceGroup "Terrain" 0) emptyWorld).1 =
      Outcome.returned 0 ∧
    (∃ rm : Nat,
      (dispatch 0 steadyEnv leftover (Dispatch.loadResourceGroup "Terrain" 0)
        emptyWorld).2.trace =
        emptyWorld.trace ++
          ((Dispatch.loadResourceGroup "Terrain" 0).lookup ++
            [(Dispatch.loadResourceGroup "Terrain" 0).storeCall rm]).map Event.store) ∧
    (isProcessComplete 0 (dispatchAll 0 steadyEnv leftover
      [meshLoad, Dispatch.unload "Mesh" "ogrehead.mesh" 0] ⟨∅, []⟩)).1 = true :=
  have hE : ∀ tr c, ∃ v, steadyEnv.store tr c = Outcome.returned v := by
    intro tr c
    cases c <;> exact ⟨_, rfl⟩
  have h := synchronous_dispatch steadyEnv leftover (Dispatch.loadResourceGroup "Terrain" 0)
    emptyWorld [meshLoad, Dispatch.unload "Mesh" "ogrehead.mesh" 0] []
  ⟨hE, h.2.1 hE, (h.2.2.1 0 (h.2.1 hE)).2, h.2.2.2.2 0⟩

end Ogre
